import Mathlib

/-!
Verification of the orion cross-venue arbitrage system against its
natural-language specification.  The Python source under `src/` is shallowly
embedded: floats are modelled as rationals (`ℚ`), Python `int` as `ℤ` or `ℕ`,
`None` as `Option`, and raised exceptions as `Except` errors.  Mutable objects
become explicit state records threaded through the operations.
-/

set_option maxRecDepth 10000

namespace Orion

/-! ## Capital manager (`src/execution/capital_manager.py`)

`PortfolioState` is the dataclass of the same name; fields that no modelled
operation reads or writes (`sharpe_ratio`, `last_updated`) are elided.
Python floats become `ℚ`, the `open_positions` int becomes `ℤ`. -/

structure PortfolioState where
  kalshi_balance : ℚ := 0
  polymarket_balance : ℚ := 0
  total_balance : ℚ := 0
  kalshi_allocated : ℚ := 0
  polymarket_allocated : ℚ := 0
  open_positions : ℤ := 0
  locked_capital : ℚ := 0
  realized_pnl : ℚ := 0
  unrealized_pnl : ℚ := 0
  total_pnl : ℚ := 0
  daily_pnl : ℚ := 0
  max_drawdown : ℚ := 0
  deriving DecidableEq, Repr

/-- Configuration slice read by `CapitalManager.__init__` (defaults as in the
source). -/
structure CapitalConfig where
  initial_bankroll : ℚ := 100000
  kalshi_allocation_pct : ℚ := 1/2
  polymarket_allocation_pct : ℚ := 1/2
  reserve_pct : ℚ := 1/10
  rebalance_threshold : ℚ := 3/20
  max_open_positions : ℤ := 20
  max_exposure_per_event : ℚ := 1/10
  max_daily_loss_pct : ℚ := 1/20
  deriving DecidableEq, Repr

/-- Mutable state of a `CapitalManager`: the portfolio, the `positions` dict
(modelled as an association list from position id to its recorded size; the
`opened_at`/`status` bookkeeping entries are not read by any modelled
operation) and `daily_start_balance`. -/
structure CapitalManager where
  portfolio : PortfolioState
  positions : List (String × ℚ)
  daily_start_balance : ℚ
  deriving DecidableEq, Repr

/-- Python dict assignment `self.positions[pid] = {...}`: replaces any
existing binding. -/
def dictInsert (l : List (String × ℚ)) (k : String) (v : ℚ) :
    List (String × ℚ) :=
  (k, v) :: l.filter (fun p => p.1 ≠ k)

/-- Python `pid in self.positions` / `self.positions[pid]` lookup. -/
def dictLookup (l : List (String × ℚ)) (k : String) : Option ℚ :=
  (l.find? (fun p => p.1 = k)).map (fun p => p.2)

/-- `CapitalManager.get_available_capital`: `max(0, total - locked - reserve)`
with `reserve = total * reserve_pct`. -/
def getAvailableCapital (cfg : CapitalConfig) (m : CapitalManager) : ℚ :=
  max 0 (m.portfolio.total_balance - m.portfolio.locked_capital -
    m.portfolio.total_balance * cfg.reserve_pct)

/-- `CapitalManager.can_open_position`.  The four early-return guards of the
source, in order.  The last guard divides by `daily_start_balance`; Python
raises `ZeroDivisionError` when it is zero, so theorems about this function
carry a `daily_start_balance ≠ 0` hypothesis. -/
def canOpenPosition (cfg : CapitalConfig) (m : CapitalManager) (position_size : ℚ) :
    Bool :=
  if m.portfolio.open_positions ≥ cfg.max_open_positions then false
  else if position_size > getAvailableCapital cfg m then false
  else if position_size > m.portfolio.total_balance * cfg.max_exposure_per_event then
    false
  else if |m.portfolio.daily_pnl| / m.daily_start_balance ≥ cfg.max_daily_loss_pct then
    false
  else true

/-- `CapitalManager.allocate_capital`: on success locks the capital, bumps the
open-position count and records the position; returns the new state together
with the boolean result. -/
def allocateCapital (cfg : CapitalConfig) (m : CapitalManager)
    (position_size : ℚ) (position_id : String) : CapitalManager × Bool :=
  if canOpenPosition cfg m position_size then
    ({ m with
        portfolio := { m.portfolio with
          locked_capital := m.portfolio.locked_capital + position_size
          open_positions := m.portfolio.open_positions + 1 }
        positions := dictInsert m.positions position_id position_size }, true)
  else (m, false)

/-- `CapitalManager.release_capital`.  The size released is the recorded size
when the id is tracked, else `position_size or 0` (`Option.getD 0` coincides
with Python's `or` here because the only falsy float it can collapse is `0.0`,
which `or` also sends to `0`). -/
def releaseCapital (m : CapitalManager) (position_id : String) (pnl : ℚ)
    (position_size : Option ℚ) : CapitalManager :=
  let size : ℚ := (dictLookup m.positions position_id).getD (position_size.getD 0)
  let realized := m.portfolio.realized_pnl + pnl
  { m with
    portfolio := { m.portfolio with
      locked_capital := max 0 (m.portfolio.locked_capital - size)
      open_positions := max 0 (m.portfolio.open_positions - 1)
      realized_pnl := realized
      total_pnl := realized + m.portfolio.unrealized_pnl
      daily_pnl := m.portfolio.daily_pnl + pnl
      total_balance := m.portfolio.total_balance + pnl } }

/-- `CapitalManager.reset_daily_metrics`. -/
def resetDailyMetrics (m : CapitalManager) : CapitalManager :=
  { m with
    daily_start_balance := m.portfolio.total_balance
    portfolio := { m.portfolio with daily_pnl := 0 } }

/-! ## Circuit breaker (`src/execution/circuit_breaker.py`)

`datetime.now()` is passed in explicitly as a `PyTime`; only the pieces the
breaker inspects (the calendar day for `.date()` comparisons and the hour) are
modelled. -/

structure PyTime where
  day : ℤ
  hour : ℤ
  deriving DecidableEq, Repr

structure CircuitBreaker where
  max_daily_loss_pct : ℚ := 1/20
  max_drawdown_pct : ℚ := 3/20
  reset_hour : ℤ := 0
  daily_start_balance : Option ℚ := none
  daily_start_date : Option PyTime := none
  peak_balance : Option ℚ := none
  circuit_open : Bool := false
  halt_reason : Option String := none
  total_halts : ℕ := 0
  last_halt_time : Option PyTime := none
  deriving DecidableEq, Repr

/-- `CircuitBreaker._should_reset_daily`. -/
def shouldResetDaily (s : CircuitBreaker) (now : PyTime) : Bool :=
  match s.daily_start_date with
  | none => true
  | some d =>
    if now.day > d.day then true
    else if now.day = d.day ∧ d.hour < s.reset_hour ∧ s.reset_hour ≤ now.hour then
      true
    else false

/-- `CircuitBreaker._reset_daily_metrics`. -/
def cbResetDaily (s : CircuitBreaker) (now : PyTime) (bal : ℚ) : CircuitBreaker :=
  { s with daily_start_balance := some bal, daily_start_date := some now }

/-- `CircuitBreaker._trigger_circuit_breaker`: latches the breaker and raises. -/
def triggerBreaker (s : CircuitBreaker) (now : PyTime) (reason : String) :
    CircuitBreaker :=
  { s with
    circuit_open := true
    halt_reason := some reason
    total_halts := s.total_halts + 1
    last_halt_time := some now }

/-- `CircuitBreaker.check_breaker`.  Returns the state after the call and
whether `TradingHaltException` was raised.  The `current_pnl` argument is
accepted and, as in the source, never read. -/
def checkBreaker (s : CircuitBreaker) (now : PyTime) (current_balance : ℚ)
    (current_pnl : ℚ) : CircuitBreaker × Bool :=
  if s.circuit_open then (s, true)
  else
    let s1 := if s.daily_start_balance = none then cbResetDaily s now current_balance
      else s
    let s2 := if shouldResetDaily s1 now then cbResetDaily s1 now current_balance
      else s1
    let s3 :=
      match s2.peak_balance with
      | none => { s2 with peak_balance := some current_balance }
      | some pk =>
        if current_balance > pk then { s2 with peak_balance := some current_balance }
        else s2
    let dsb :=
      match s3.daily_start_balance with
      | some b => b
      | none => 0
    let daily_loss_pct := if dsb > 0 then (dsb - current_balance) / dsb else 0
    if daily_loss_pct ≥ s.max_daily_loss_pct then
      (triggerBreaker s3 now "Daily loss limit exceeded", true)
    else
      match s3.peak_balance with
      | some pk =>
        if pk ≠ 0 ∧ pk > 0 then
          if (pk - current_balance) / pk ≥ s.max_drawdown_pct then
            (triggerBreaker s3 now "Maximum drawdown exceeded", true)
          else (s3, false)
        else (s3, false)
      | none => (s3, false)

/-- `CircuitBreaker.manual_reset`. -/
def manualReset (s : CircuitBreaker) : CircuitBreaker :=
  { s with circuit_open := false, halt_reason := none }

/-! ## Trade executor (`src/execution/executor.py`)

Venue order payloads are Python dicts of strings and numbers; they are
modelled as association lists of `PVal` values.  Each leg's outcome (as
observed after `asyncio.gather(..., return_exceptions=True)`) is an exception,
`None`, or an order dict.  The orders the executor submits while unwinding are
collected into a list, since claims C3 and C10 are about what is submitted and
what is returned. -/

inductive PVal where
  | s (v : String)
  | n (v : ℚ)
  deriving DecidableEq, Repr

abbrev PyDict := List (String × PVal)

/-- Python `d.get(k)` (default `None`). -/
def pyGet (d : PyDict) (k : String) : Option PVal :=
  (d.find? (fun p => p.1 = k)).map (fun p => p.2)

/-- Python truthiness of a possibly missing dict value: `None`, `''` and `0`
are falsy. -/
def truthy : Option PVal → Bool
  | none => false
  | some (.s v) => v ≠ ""
  | some (.n v) => v ≠ 0

/-- Outcome of one leg coroutine under `gather(..., return_exceptions=True)`. -/
inductive LegOutcome where
  | exn (msg : String)
  | retNone
  | ok (order : PyDict)
  deriving DecidableEq, Repr

/-- `not isinstance(r, Exception) and r is not None`. -/
def legSuccess : LegOutcome → Bool
  | .ok _ => true
  | _ => false

/-- `kalshi_result if kalshi_success else None` (an `ok` outcome carries the
order dict, anything else contributes `None`). -/
def legOrder : LegOutcome → Option PyDict
  | .ok d => some d
  | _ => none

/-- `str(result)` as used in the failure message: an exception renders as its
message, `None` as `"None"` (the `ok` case is never rendered). -/
def legStr : LegOutcome → String
  | .exn m => m
  | .retNone => "None"
  | .ok _ => ""

inductive Venue where
  | kalshi
  | polymarket
  deriving DecidableEq, Repr

/-- An order submitted to a venue client (`place_order` call).  `action` is
Kalshi's buy/sell field; Polymarket encodes the direction in `side`. -/
structure PlacedOrder where
  venue : Venue
  market : PVal
  side : PVal
  action : Option String
  qty : PVal
  price : ℚ
  order_type : String
  deriving DecidableEq, Repr

/-- `ExecutionResult` dataclass with its source defaults (`executed_at` is
elided: no claim inspects it). -/
structure ExecutionResult where
  success : Bool
  position_id : String
  kalshi_order_id : Option PVal := none
  polymarket_order_id : Option PVal := none
  kalshi_filled : Bool := false
  polymarket_filled : Bool := false
  actual_cost : ℚ := 0
  error_message : Option String := none
  deriving DecidableEq, Repr

/-- `TradeExecutor._unwind_kalshi_position`: submits the offsetting sell only
when the original order dict carries truthy `ticker`, `side` and `count`
(`if not all([ticker, side, count]): return False`). -/
def unwindKalshiPosition (o : PyDict) : List PlacedOrder :=
  match pyGet o "ticker", pyGet o "side", pyGet o "count" with
  | some t, some s, some c =>
    if truthy (some t) ∧ truthy (some s) ∧ truthy (some c) then
      [⟨.kalshi, t, s, some "sell", c, 50, "limit"⟩]
    else []
  | _, _, _ => []

/-- `TradeExecutor._unwind_polymarket_position`: offsetting `SELL` of the same
token at the `0.5` mid-price, given truthy `token_id` and `size`. -/
def unwindPolymarketPosition (o : PyDict) : List PlacedOrder :=
  match pyGet o "token_id", pyGet o "size" with
  | some t, some s =>
    if truthy (some t) ∧ truthy (some s) then
      [⟨.polymarket, t, .s "SELL", none, s, 1/2, "LIMIT"⟩]
    else []
  | _, _ => []

/-- `TradeExecutor._handle_partial_fill`: an unwind task is created for a leg
only when that leg filled and its order dict is truthy (non-empty). -/
def handlePartialFill (kalshi_filled poly_filled : Bool)
    (kalshi_order poly_order : Option PyDict) : List PlacedOrder :=
  (if kalshi_filled then
    match kalshi_order with
    | some d => if d ≠ [] then unwindKalshiPosition d else []
    | none => []
  else []) ++
  (if poly_filled then
    match poly_order with
    | some d => if d ≠ [] then unwindPolymarketPosition d else []
    | none => []
  else [])

/-- The `"; ".join(error_msg)` failure message. -/
def failMessage (k p : LegOutcome) : String :=
  String.intercalate "; "
    ((if legSuccess k then [] else ["Kalshi: " ++ legStr k]) ++
     (if legSuccess p then [] else ["Polymarket: " ++ legStr p]))

/-- `TradeExecutor.execute_arbitrage`, live (non-dry-run) path, as a function
of the two leg outcomes.  Returns the orders submitted during unwinding
together with the `ExecutionResult`.  The dry-run branch returns a synthetic
success and is not modelled here (claims C3 and C10 are about live mode). -/
def executeArbitrageLive (position_id : String) (position_size_usd : ℚ)
    (kalshi_result poly_result : LegOutcome) :
    List PlacedOrder × ExecutionResult :=
  match kalshi_result, poly_result with
  | .ok kd, .ok pd =>
    ([], { success := true
           position_id := position_id
           kalshi_order_id := pyGet kd "order_id"
           polymarket_order_id := pyGet pd "order_id"
           kalshi_filled := true
           polymarket_filled := true
           actual_cost := position_size_usd })
  | k, p =>
    (handlePartialFill (legSuccess k) (legSuccess p) (legOrder k) (legOrder p),
     { success := false
       position_id := position_id
       error_message := some (failMessage k p) })

/-! ## Event matcher (`src/arbitrage/matcher.py`)

Text is processed as `List Char`.  `.lower()`, `' '.join(text.split())`,
`re.sub(r'[^\w\s?]', '', ...)` and `str.replace` are modelled character by
character (all inputs of interest are ASCII, where `Char.toLower`,
`Char.isAlphanum` and `Char.isWhitespace` agree with Python). -/

def lowerChars (l : List Char) : List Char := l.map Char.toLower

/-- Python `text.split()`: split on whitespace runs, dropping empty pieces. -/
def pyWords (l : List Char) : List (List Char) :=
  (l.splitOnP (fun c => c.isWhitespace)).filter (fun w => w ≠ [])

/-- `' '.join(words)`. -/
def joinSpace (ws : List (List Char)) : List Char := List.intercalate [' '] ws

/-- `' '.join(text.split())`. -/
def collapseWs (l : List Char) : List Char := joinSpace (pyWords l)

/-- Python regex `\w` over ASCII. -/
def isWordChar (c : Char) : Bool := c.isAlphanum || c = '_'

/-- `re.sub(r'[^\w\s?]', '', text)`. -/
def stripPunct (l : List Char) : List Char :=
  l.filter (fun c => isWordChar c || c.isWhitespace || c = '?')

/-- One step of Python `str.replace`: scan left to right, replacing
non-overlapping occurrences.  Fuel is the remaining length (each step consumes
at least one character; the patterns used are never empty). -/
def replaceAux (pat rep : List Char) : ℕ → List Char → List Char
  | 0, l => l
  | Nat.succ fuel, l =>
    if pat ≠ [] ∧ pat.isPrefixOf l then rep ++ replaceAux pat rep fuel (l.drop pat.length)
    else
      match l with
      | [] => []
      | c :: cs => c :: replaceAux pat rep fuel cs

/-- Python `l.replace(pat, rep)` for a non-empty pattern. -/
def pyReplace (l pat rep : List Char) : List Char := replaceAux pat rep (l.length + 1) l

/-- The `replacements` dict of `normalize_text`, in its (insertion) order;
each stop word `w` is replaced as `text.replace(f' {w} ', f'  ')` (the
replacement is the two surrounding spaces, the word itself maps to `''`). -/
def replacementWords : List String := ["will", "the", "be", "by", "on", "in", "at"]

def stopReplace (l : List Char) : List Char :=
  replacementWords.foldl
    (fun acc w => pyReplace acc (' ' :: (w.toList ++ [' '])) [' ', ' ']) l

/-- `EventMatcher.normalize_text`: lowercase, collapse whitespace, strip
punctuation except `?`, space-delimited stop-word replacement, collapse
again. -/
def normalizeText (s : String) : List Char :=
  collapseWs (stopReplace (stripPunct (collapseWs (lowerChars s.toList))))

/-! `difflib.SequenceMatcher.ratio()` on two short sequences (no autojunk for
lengths under 200, and no junk): total matched size `M` from the recursive
longest-matching-block decomposition, giving `2M/(len(a)+len(b))`. -/

/-- Length of the common prefix of two character lists. -/
def commonPfx : List Char → List Char → ℕ
  | a :: as, b :: bs => if a = b then commonPfx as bs + 1 else 0
  | _, _ => 0

def matchLenAt (a b : List Char) (i j : ℕ) : ℕ := commonPfx (a.drop i) (b.drop j)

/-- `find_longest_match`: the longest matching block, earliest in `a` and,
among those, earliest in `b` (as documented for difflib without junk). -/
def longestMatch (a b : List Char) : ℕ × ℕ × ℕ :=
  (List.range (a.length + 1)).foldl
    (fun best i =>
      (List.range (b.length + 1)).foldl
        (fun best j =>
          let k := matchLenAt a b i j
          if k > best.2.2 then (i, j, k) else best)
        best)
    (0, 0, 0)

/-- Total matched size over the recursive matching-block decomposition.  Fuel
bounds the recursion depth (each recursive call strictly shrinks the
sequences). -/
def totalMatchedAux : ℕ → List Char → List Char → ℕ
  | 0, _, _ => 0
  | Nat.succ fuel, a, b =>
    let r := longestMatch a b
    if r.2.2 = 0 then 0
    else
      totalMatchedAux fuel (a.take r.1) (b.take r.2.1) + r.2.2 +
        totalMatchedAux fuel (a.drop (r.1 + r.2.2)) (b.drop (r.2.1 + r.2.2))

/-- `SequenceMatcher(None, a, b).ratio()` (`1.0` on two empty sequences, as in
difflib). -/
def seqMatcherScore (a b : List Char) : ℚ :=
  if a.length + b.length = 0 then 1
  else 2 * (totalMatchedAux (a.length + b.length + 1) a b : ℚ) / (a.length + b.length)

/-- `EventMatcher.calculate_similarity`. -/
def calculateSimilarity (t1 t2 : String) : ℚ :=
  seqMatcherScore (normalizeText t1) (normalizeText t2)

/-- The `stop_words` set of `extract_keywords`. -/
def stopWords : List (List Char) :=
  (["will", "the", "be", "by", "on", "in", "at", "to", "a", "an",
    "is", "are", "was", "were", "have", "has", "had", "for", "of"]).map
    String.toList

/-- `EventMatcher.extract_keywords`: the set of normalized tokens of length
over 2 that are not stop words (a Python set, modelled as a deduplicated
list: only sizes and membership are ever consumed). -/
def extractKeywords (s : String) : List (List Char) :=
  ((pyWords (normalizeText s)).dedup).filter
    (fun w => w.length > 2 ∧ w ∉ stopWords)

/-- `EventMatcher.keyword_overlap`: Jaccard over the keyword sets, `0.0` when
either set is empty. -/
def keywordOverlap (t1 t2 : String) : ℚ :=
  let k1 := extractKeywords t1
  let k2 := extractKeywords t2
  if k1 = [] ∨ k2 = [] then 0
  else
    let inter := k1.filter (fun w => w ∈ k2)
    let uni := (k1 ++ k2).dedup
    if uni = [] then 0 else (inter.length : ℚ) / uni.length

/-- The combined similarity of `is_match` with `use_keywords=True`:
`0.7 * text + 0.3 * keywords`. -/
def combinedSimilarity (q1 q2 : String) : ℚ :=
  7/10 * calculateSimilarity q1 q2 + 3/10 * keywordOverlap q1 q2

/-! `EventMatcher.parse_date` / `dates_match`.  `strptime` is modelled for the
formats the source can actually hit.  The input is first preprocessed as
`date_str.split('.')[0].replace('Z', '')`; the two `...Z` formats then expect
a literal `Z` the preprocessing just removed, so they can never match and are
omitted.  The remaining formats, in source order: `%Y-%m-%d`,
`%Y-%m-%dT%H:%M:%S`, `%m/%d/%Y`, `%d/%m/%Y`. -/

structure PyDateTime where
  year : ℕ
  month : ℕ
  day : ℕ
  hour : ℕ
  minute : ℕ
  second : ℕ
  deriving DecidableEq, Repr

def digitVal (c : Char) : ℕ := c.toNat - 48

/-- `%Y`: exactly four digits. -/
def parse4Digits : List Char → Option (ℕ × List Char)
  | a :: b :: c :: d :: rest =>
    if a.isDigit ∧ b.isDigit ∧ c.isDigit ∧ d.isDigit then
      some (digitVal a * 1000 + digitVal b * 100 + digitVal c * 10 + digitVal d, rest)
    else none
  | _ => none

/-- A one-or-two-digit field, trying the two-digit alternative first, exactly
as the ordered regex alternations `strptime` compiles (`1[0-2]|0[1-9]|[1-9]`
and so on); `valid2`/`valid1` encode which values each alternative admits. -/
def parse2or1 (valid2 valid1 : ℕ → Bool) : List Char → Option (ℕ × List Char)
  | a :: b :: rest =>
    if a.isDigit ∧ b.isDigit ∧ valid2 (digitVal a * 10 + digitVal b) then
      some (digitVal a * 10 + digitVal b, rest)
    else if a.isDigit ∧ valid1 (digitVal a) then some (digitVal a, b :: rest)
    else none
  | [a] => if a.isDigit ∧ valid1 (digitVal a) then some (digitVal a, []) else none
  | [] => none

def expectChar (c : Char) : List Char → Option (List Char)
  | x :: rest => if x = c then some rest else none
  | [] => none

def validMonth2 (m : ℕ) : Bool := 1 ≤ m ∧ m ≤ 12
def validMonth1 (m : ℕ) : Bool := 1 ≤ m ∧ m ≤ 9
def validDay2 (d : ℕ) : Bool := 1 ≤ d ∧ d ≤ 31
def validDay1 (d : ℕ) : Bool := 1 ≤ d ∧ d ≤ 9
def validHour2 (h : ℕ) : Bool := h ≤ 23
def validMS2 (x : ℕ) : Bool := x ≤ 59
def validAny1 (x : ℕ) : Bool := x ≤ 9

def isLeapYear (y : ℕ) : Bool := y % 4 = 0 ∧ (y % 100 ≠ 0 ∨ y % 400 = 0)

def daysInMonth (y m : ℕ) : ℕ :=
  if m = 2 then (if isLeapYear y then 29 else 28)
  else if m = 4 ∨ m = 6 ∨ m = 9 ∨ m = 11 then 30
  else 31

/-- The validation `datetime(...)` applies after the regex match
(`MINYEAR ≤ year`, day fits the month). -/
def validDate (y m d : ℕ) : Bool :=
  1 ≤ y ∧ y ≤ 9999 ∧ 1 ≤ m ∧ m ≤ 12 ∧ 1 ≤ d ∧ d ≤ daysInMonth y m

def fmtYMD (l : List Char) : Option PyDateTime := do
  let (y, l) ← parse4Digits l
  let l ← expectChar '-' l
  let (m, l) ← parse2or1 validMonth2 validMonth1 l
  let l ← expectChar '-' l
  let (d, l) ← parse2or1 validDay2 validDay1 l
  if l = [] ∧ validDate y m d then pure ⟨y, m, d, 0, 0, 0⟩ else none

def fmtYMDHMS (l : List Char) : Option PyDateTime := do
  let (y, l) ← parse4Digits l
  let l ← expectChar '-' l
  let (m, l) ← parse2or1 validMonth2 validMonth1 l
  let l ← expectChar '-' l
  let (d, l) ← parse2or1 validDay2 validDay1 l
  let l ← expectChar 'T' l
  let (hh, l) ← parse2or1 validHour2 validAny1 l
  let l ← expectChar ':' l
  let (mi, l) ← parse2or1 validMS2 validAny1 l
  let l ← expectChar ':' l
  let (ss, l) ← parse2or1 validMS2 validAny1 l
  if l = [] ∧ validDate y m d then pure ⟨y, m, d, hh, mi, ss⟩ else none

def fmtMDY (l : List Char) : Option PyDateTime := do
  let (m, l) ← parse2or1 validMonth2 validMonth1 l
  let l ← expectChar '/' l
  let (d, l) ← parse2or1 validDay2 validDay1 l
  let l ← expectChar '/' l
  let (y, l) ← parse4Digits l
  if l = [] ∧ validDate y m d then pure ⟨y, m, d, 0, 0, 0⟩ else none

def fmtDMY (l : List Char) : Option PyDateTime := do
  let (d, l) ← parse2or1 validDay2 validDay1 l
  let l ← expectChar '/' l
  let (m, l) ← parse2or1 validMonth2 validMonth1 l
  let l ← expectChar '/' l
  let (y, l) ← parse4Digits l
  if l = [] ∧ validDate y m d then pure ⟨y, m, d, 0, 0, 0⟩ else none

/-- `EventMatcher.parse_date`. -/
def parseDate : Option String → Option PyDateTime
  | none => none
  | some s =>
    if s = "" then none
    else
      let l := (s.toList.takeWhile (fun c => c ≠ '.')).filter (fun c => c ≠ 'Z')
      (fmtYMD l) <|> (fmtYMDHMS l) <|> (fmtMDY l) <|> (fmtDMY l)

/-- Days since the civil epoch 1970-01-01 (proleptic Gregorian); all
intermediate quantities are nonnegative for the validated years `≥ 1`, so the
division convention is immaterial. -/
def civilDays (t : PyDateTime) : ℤ :=
  let y : ℤ := if t.month ≤ 2 then (t.year : ℤ) - 1 else (t.year : ℤ)
  let era : ℤ := y / 400
  let yoe : ℤ := y - era * 400
  let mp : ℤ := ((t.month : ℤ) + 9) % 12
  let doy : ℤ := (153 * mp + 2) / 5 + (t.day : ℤ) - 1
  let doe : ℤ := yoe * 365 + yoe / 4 - yoe / 100 + doy
  era * 146097 + doe - 719468

def toSeconds (t : PyDateTime) : ℤ :=
  civilDays t * 86400 + (t.hour : ℤ) * 3600 + (t.minute : ℤ) * 60 + (t.second : ℤ)

/-- `EventMatcher.dates_match`: lenient when either date fails to parse;
otherwise `abs((dt1 - dt2).days) <= tolerance`, where `timedelta.days`
rounds toward minus infinity (`Int.fdiv`). -/
def datesMatch (d1 d2 : Option String) (tolerance : ℤ) : Bool :=
  match parseDate d1, parseDate d2 with
  | some t1, some t2 => |Int.fdiv (toSeconds t1 - toSeconds t2) 86400| ≤ tolerance
  | _, _ => true

/-- A market dict as the matcher, risk analyzer and detector consume it:
`question`/`description` default to `''`, `end_date` to `None`, `liquidity`
to `0`, `market_id` to `None`. -/
structure Market where
  market_id : Option String := none
  question : String := ""
  description : String := ""
  end_date : Option String := none
  liquidity : ℚ := 0
  deriving DecidableEq, Repr

/-- `EventMatcher.is_match` with its default `use_keywords=True`: the combined
similarity and whether the pair passes threshold and date tolerance. -/
def isMatchPair (threshold : ℚ) (tolerance : ℤ) (m1 m2 : Market) : Bool × ℚ :=
  if m1.question = "" ∨ m2.question = "" then (false, 0)
  else
    let cs := combinedSimilarity m1.question m2.question
    ((decide (cs ≥ threshold) && datesMatch m1.end_date m2.end_date tolerance), cs)

/-- The inner loop of `find_matches` for one Kalshi market: running
`(best_match, best_score)` accumulator, updated only on `is_match` **and** a
strictly greater score. -/
def selectAux (threshold : ℚ) (tolerance : ℤ) (km : Market) :
    Option Market × ℚ → List Market → Option Market × ℚ
  | acc, [] => acc
  | acc, pm :: rest =>
    let r := isMatchPair threshold tolerance km pm
    if r.1 = true ∧ r.2 > acc.2 then selectAux threshold tolerance km (some pm, r.2) rest
    else selectAux threshold tolerance km acc rest

/-- `EventMatcher.find_matches`: each Kalshi market paired with its selected
Polymarket market, when one was selected (a selected market dict is non-empty
— its question is non-empty — hence truthy). -/
def findMatches (threshold : ℚ) (tolerance : ℤ)
    (kalshi_markets polymarket_markets : List Market) :
    List (Market × Market × ℚ) :=
  kalshi_markets.foldr
    (fun km acc =>
      match selectAux threshold tolerance km (none, 0) polymarket_markets with
      | (some bm, bs) => (km, bm, bs) :: acc
      | (none, _) => acc)
    []

/-! ## Risk analyzer (`src/arbitrage/risk_analyzer.py`)

The `warnings` and `risk_factors` lists only feed logging; the claims consume
the score, tier and size multiplier, so the assessment is modelled by those
three fields.  Python `keyword in question` substring tests are modelled over
lowered character lists. -/

/-- Python `pat in hay` substring containment. -/
def listContains (pat : List Char) : List Char → Bool
  | [] => pat.isEmpty
  | c :: cs => pat.isPrefixOf (c :: cs) || listContains pat cs

def toLowerStr (s : String) : List Char := lowerChars s.toList

def strContains (hay : List Char) (needle : String) : Bool :=
  listContains needle.toList hay

/-- The `risky_keywords` dict keys in insertion order. -/
def riskyKeywords : List String :=
  ["primary", "general", "runoff", "plurality", "majority", "at least",
   "more than", "by end of", "before"]

/-- `RiskAnalyzer._analyze_event_definition_risk` (score only). -/
def eventDefinitionScore (km pm : Market) (similarity : ℚ) : ℚ :=
  let kq := toLowerStr km.question
  let pq := toLowerStr pm.question
  let s0 := riskyKeywords.foldl
    (fun acc w => if strContains kq w ≠ strContains pq w then acc + 1/4 else acc) 0
  let s1 := if similarity < 9/10 then s0 + 3/10 else s0
  let s2 :=
    if km.description ≠ "" ∧ pm.description ≠ "" ∧
        strContains (toLowerStr km.description) "primary" ∧
        strContains (toLowerStr pm.description) "general" then
      s1 + 1/2
    else s1
  min s2 1

/-- `RiskAnalyzer._analyze_timing_risk` (score only). -/
def timingScore (km pm : Market) : ℚ :=
  let ke := km.end_date.getD ""
  let pe := pm.end_date.getD ""
  let s0 := if ke ≠ "" ∧ pe ≠ "" ∧ ke ≠ pe then (3/20 : ℚ) else 0
  let kq := toLowerStr km.question
  if strContains kq "by end of" ∨ strContains kq "before" then s0 + 1/20 else s0

/-- `RiskAnalyzer._analyze_liquidity_risk` (score only). -/
def liquidityScore (km pm : Market) (position_size : ℚ) : ℚ :=
  (if km.liquidity > 0 ∧ position_size / km.liquidity > 1/10 then (1/5 : ℚ) else 0) +
  (if pm.liquidity > 0 ∧ position_size / pm.liquidity > 1/10 then (1/5 : ℚ) else 0)

/-- `RiskAnalyzer._analyze_edge_risk` (score only). -/
def edgeScore (edge : ℚ) : ℚ :=
  if edge < 1/200 then 3/10 else if edge < 1/100 then 3/20 else 0

/-- `RiskAnalyzer._analyze_regulatory_risk` (score only). -/
def regulatoryScore (pm : Market) : ℚ :=
  let pq := toLowerStr pm.question
  1/10 +
    (if (["election", "vote", "campaign", "political"]).any
        (fun w => strContains pq w) then (1/20 : ℚ) else 0)

inductive RiskLevel where
  | low
  | medium
  | high
  | critical
  deriving DecidableEq, Repr

/-- The `RiskAssessment` dataclass: note that the aggregate-score field is
named `score` — the detector nonetheless reads `.risk_score` when building an
opportunity. -/
structure RiskAssessment where
  overall_risk : RiskLevel
  score : ℚ
  recommended_size_multiplier : ℚ
  deriving DecidableEq, Repr

/-- The field names of the `RiskAssessment` dataclass, from the source. -/
def riskAssessmentFields : List String :=
  ["overall_risk", "risk_factors", "warnings", "score",
   "recommended_size_multiplier"]

/-- `RiskAnalyzer.analyze_opportunity` (tier thresholds and multipliers from
the source). -/
def analyzeOpportunity (km pm : Market) (similarity edge position_size : ℚ) :
    RiskAssessment :=
  let rs := eventDefinitionScore km pm similarity + timingScore km pm +
    liquidityScore km pm position_size + edgeScore edge + regulatoryScore pm
  if rs ≥ 7/10 then ⟨.critical, rs, 1/10⟩
  else if rs ≥ 1/2 then ⟨.high, rs, 3/10⟩
  else if rs ≥ 3/10 then ⟨.medium, rs, 7/10⟩
  else ⟨.low, rs, 1⟩

/-- `RiskAssessment.should_execute`. -/
def shouldExecute (r : RiskAssessment) : Bool :=
  r.overall_risk = RiskLevel.low ∨ r.overall_risk = RiskLevel.medium

/-! ## Detector (`src/arbitrage/detector.py`) -/

structure DetectorConfig where
  threshold_spread : ℚ := 1/100
  min_trade_size : ℚ := 100
  max_trade_size_pct : ℚ := 1/20
  target_liquidity : ℚ := 5000
  kalshi_fee_pct : ℚ := 7/1000
  polymarket_fee_pct : ℚ := 1/50
  gas_cost : ℚ := 5
  deriving DecidableEq, Repr

/-- The declared fields of the `ArbitrageOpportunity` dataclass (source lines
17–54): neither `days_to_resolution` nor `annualized_roi` is among them,
although the constructor call passes both as keyword arguments. -/
def arbitrageOpportunityFields : List String :=
  ["kalshi_market_id", "polymarket_market_id", "question", "end_date",
   "kalshi_yes_price", "polymarket_no_price", "spread", "edge",
   "trade_direction", "position_size_usd", "kalshi_contracts",
   "polymarket_size", "expected_profit", "expected_roi", "kalshi_fee",
   "polymarket_fee", "total_fees", "detected_at", "similarity_score",
   "liquidity_kalshi", "liquidity_polymarket", "risk_level", "risk_score",
   "risk_warnings"]

/-- The keyword arguments the detector passes to the `ArbitrageOpportunity`
constructor (source lines 418–445). -/
def opportunityCtorKwargs : List String :=
  ["kalshi_market_id", "polymarket_market_id", "question", "end_date",
   "kalshi_yes_price", "polymarket_no_price", "spread", "edge",
   "trade_direction", "position_size_usd", "kalshi_contracts",
   "polymarket_size", "expected_profit", "expected_roi", "kalshi_fee",
   "polymarket_fee", "total_fees", "detected_at", "similarity_score",
   "liquidity_kalshi", "liquidity_polymarket", "risk_level", "risk_score",
   "risk_warnings", "days_to_resolution", "annualized_roi"]

/-- The `ArbitrageOpportunity` value the constructor would produce; it is
never built, because the construction step raises (see
`detectOpportunityDirectional`). -/
structure ArbitrageOpportunity where
  kalshi_market_id : Option String
  polymarket_market_id : Option String
  spread : ℚ
  edge : ℚ
  trade_direction : String
  position_size_usd : ℚ
  expected_profit : ℚ
  similarity_score : ℚ
  deriving DecidableEq, Repr

/-- The exception the construction step raises: evaluating the keyword
argument `risk_score=risk_assessment.risk_score` (detector.py:441) reads an
attribute the `RiskAssessment` dataclass does not have — its field is named
`score` (and were it present, the unknown `days_to_resolution` /
`annualized_roi` keywords would raise `TypeError` next). -/
def attrErrMsg : String :=
  "AttributeError: RiskAssessment object has no attribute risk_score"

/-- `ArbitrageDetector.calculate_position_size` (`kelly_fraction` is `0.25`
at every call site). -/
def calculatePositionSize (cfg : DetectorConfig)
    (edge bankroll kelly_fraction : ℚ) : ℚ :=
  let max_size := bankroll * cfg.max_trade_size_pct
  let kelly_size := bankroll * edge * kelly_fraction
  let size := min kelly_size max_size
  if size < cfg.min_trade_size then 0 else size

/-- `ArbitrageDetector._detect_opportunity_directional`.  The guards, in
source order: threshold on the raw edge, risk tier, zero (multiplier-adjusted)
size, non-positive net edge, liquidity floor; a direction failing one returns
`None` (`.ok none`).  A direction passing all of them reaches the
`ArbitrageOpportunity(...)` constructor call, which always raises
(`.error attrErrMsg`): the `risk_score` attribute read does not exist on
`RiskAssessment`. -/
def detectOpportunityDirectional (cfg : DetectorConfig) (km pm : Market)
    (price1 price2 similarity bankroll : ℚ) (direction : String) :
    Except String (Option ArbitrageOpportunity) :=
  let spread := price1 + price2
  let raw_edge := 1 - spread
  if raw_edge < cfg.threshold_spread then .ok none
  else
    let risk := analyzeOpportunity km pm similarity raw_edge
      (bankroll * cfg.max_trade_size_pct)
    if shouldExecute risk = false then .ok none
    else
      let position_size :=
        calculatePositionSize cfg raw_edge bankroll (1/4) *
          risk.recommended_size_multiplier
      if position_size = 0 then .ok none
      else
        let kalshi_fee := position_size * cfg.kalshi_fee_pct
        let poly_fee := position_size * cfg.polymarket_fee_pct + cfg.gas_cost
        let total_fees := kalshi_fee + poly_fee
        let net_edge := raw_edge - total_fees / position_size
        if net_edge ≤ 0 then .ok none
        else if km.liquidity < cfg.target_liquidity ∨
            pm.liquidity < cfg.target_liquidity then .ok none
        else .error attrErrMsg

/-- `ArbitrageDetector.detect_best_direction`: try direction 1 when both its
prices are truthy (non-zero), then direction 2; an exception in either
propagates (short-circuits, as in Python).  Of two surviving opportunities the
one with the higher `expected_profit` wins (Python `max` keeps the first on a
tie). -/
def detectBestDirection (cfg : DetectorConfig) (km pm : Market)
    (kalshi_yes kalshi_no poly_yes poly_no similarity bankroll : ℚ) :
    Except String (Option ArbitrageOpportunity) := do
  let o1 ←
    if kalshi_yes ≠ 0 ∧ poly_no ≠ 0 then
      detectOpportunityDirectional cfg km pm kalshi_yes poly_no similarity
        bankroll "kalshi_yes_poly_no"
    else pure none
  let o2 ←
    if poly_yes ≠ 0 ∧ kalshi_no ≠ 0 then
      detectOpportunityDirectional cfg km pm poly_yes kalshi_no similarity
        bankroll "poly_yes_kalshi_no"
    else pure none
  match o1, o2 with
  | some a, some b => pure (some (if b.expected_profit > a.expected_profit then b else a))
  | some a, none => pure (some a)
  | none, some b => pure (some b)
  | none, none => pure none

/-! ## Journal / repository (`src/database/repository.py`)

Rows are modelled with the columns the queried tables hold after
`migrate_database.py` has run: the migration adds a `trading_mode` column
(default `"paper"`) to `opportunities` and `trades`, but neither the
SQLAlchemy models nor any repository query mentions it (there is no
`execution_mode` anywhere in the source).  Timestamps become `ℕ` ticks;
columns no modelled query touches are elided. -/

structure OppRow where
  position_id : String
  detected_at : ℕ
  status : String := "detected"
  executed : Bool := false
  trading_mode : String := "paper"
  deriving DecidableEq, Repr

structure TradeRow where
  position_id : String
  created_at : ℕ
  status : String
  success : Bool
  actual_cost : ℚ
  realized_pnl : Option ℚ := none
  trading_mode : String := "paper"
  deriving DecidableEq, Repr

structure BalanceRow where
  snapshot_at : ℕ
  total_balance : ℚ
  trading_mode : String := "paper"
  deriving DecidableEq, Repr

/-- `ArbitrageRepository.get_recent_opportunities`: order by `detected_at`
descending, take `limit`.  No filter of any kind is applied. -/
def getRecentOpportunities (db : List OppRow) (limit : ℕ) : List OppRow :=
  (db.insertionSort (fun a b => b.detected_at ≤ a.detected_at)).take limit

/-- `ArbitrageRepository.get_open_positions`: trades with status in
`['filled', 'partial']`.  No mode filter. -/
def getOpenPositions (db : List TradeRow) : List TradeRow :=
  db.filter (fun t => t.status = "filled" ∨ t.status = "partial")

/-- `ArbitrageRepository.get_latest_balance`: newest snapshot, no mode
filter. -/
def getLatestBalance (db : List BalanceRow) : Option BalanceRow :=
  (db.insertionSort (fun a b => b.snapshot_at ≤ a.snapshot_at)).head?

/-- The parameter names of the repository read methods, from their `def`
lines in the source — none accepts a mode argument, while `dashboard.py`
calls each of them with a `trading_mode` keyword argument (a `TypeError` at
runtime). -/
def getRecentOpportunitiesParams : List String := ["self", "limit"]

def getOpenPositionsParams : List String := ["self"]

def getPerformanceSummaryParams : List String := ["self", "days"]

def getLatestBalanceParams : List String := ["self"]

/-! Concrete fixtures used by witness theorems. -/

/-- An opportunity row journalled in paper mode. -/
def oppPaper : OppRow :=
  { position_id := "arb_1", detected_at := 1 }

/-- An opportunity row journalled in live mode (same payload, later tick). -/
def oppLive : OppRow :=
  { position_id := "arb_2", detected_at := 2, trading_mode := "live" }

/-- An open (filled) trade row in paper mode. -/
def tradePaper : TradeRow :=
  { position_id := "arb_1", created_at := 1, status := "filled", success := true
    actual_cost := 100 }

/-- An open (filled) trade row in live mode. -/
def tradeLive : TradeRow :=
  { position_id := "arb_2", created_at := 2, status := "filled", success := true
    actual_cost := 100, trading_mode := "live" }

/-- Detector configuration with the spec scenario's zero fees (other keys at
their source defaults). -/
def cfgZeroFees : DetectorConfig :=
  { kalshi_fee_pct := 0, polymarket_fee_pct := 0, gas_cost := 0 }

/-- A Kalshi market dict for the detector scenarios: ample liquidity, plain
question, no end date. -/
def kmArb : Market :=
  { market_id := some "K1", question := "abc", liquidity := 10000 }

/-- The paired Polymarket market dict. -/
def pmArb : Market :=
  { market_id := some "P1", question := "abc", liquidity := 10000 }

/-- A Kalshi listing for the tie-break scenario. -/
def kmTie : Market :=
  { market_id := some "K1", question := "abc" }

/-- A Polymarket listing with native id `"B"`, listed first. -/
def pmTieB : Market :=
  { market_id := some "B", question := "abc" }

/-- A Polymarket listing with the lexically smaller native id `"A"`. -/
def pmTieA : Market :=
  { market_id := some "A", question := "abc" }

/-- A Kalshi order dict as returned by a successful leg. -/
def kalshiOrderFull : PyDict :=
  [("order_id", .s "k_123"), ("ticker", .s "KXELEC"), ("side", .s "yes"),
   ("count", .n 100)]

/-- A Polymarket order dict as returned by a successful leg. -/
def polyOrderFull : PyDict :=
  [("order_id", .s "p_456"), ("token_id", .s "0xabc_NO"), ("size", .n 217)]

/-- A Kalshi order dict that is truthy but lacks the fields the unwind
needs. -/
def kalshiOrderBare : PyDict :=
  [("order_id", .s "k_123")]

/-- A fresh capital manager over a 100000 bankroll (the constructor's
portfolio with the fields the claims touch). -/
def cmFresh : CapitalManager :=
  ⟨{ total_balance := 100000 }, [], 100000⟩

/-- A circuit breaker that has already tripped. -/
def cbTripped : CircuitBreaker :=
  { circuit_open := true
    daily_start_balance := some 100000
    peak_balance := some 100000 }

end Orion

namespace Orion

/-- Looking up a key just inserted into the positions dict yields the inserted
size, as for a Python dict. -/
theorem dictLookup_insert (l : List (String × ℚ)) (k : String) (v : ℚ) :
    dictLookup (dictInsert l k v) k = some v := by
  unfold dictLookup dictInsert
  rw [List.find?_cons_of_pos _ (by simp)]
  rfl

/-- Claim C5: `can_open_position(size)` returns true iff all four conditions
hold: open position count below the cap, size within the unreserved unlocked
balance, size within the per-event exposure cap, and daily loss ratio strictly
below the daily-loss cap.  The `0 < size` hypothesis reflects that a proposed
position size is positive (the source clamps available capital at `0`, which
is indistinguishable for positive sizes); `daily_start_balance ≠ 0` reflects
that Python would raise `ZeroDivisionError` there. -/
theorem canOpenPosition_iff (cfg : CapitalConfig) (m : CapitalManager) (size : ℚ)
    (hsize : 0 < size) (hdsb : m.daily_start_balance ≠ 0) :
    canOpenPosition cfg m size = true ↔
      (m.portfolio.open_positions < cfg.max_open_positions ∧
       size ≤ m.portfolio.total_balance - m.portfolio.locked_capital -
         cfg.reserve_pct * m.portfolio.total_balance ∧
       size ≤ m.portfolio.total_balance * cfg.max_exposure_per_event ∧
       |m.portfolio.daily_pnl| / m.daily_start_balance < cfg.max_daily_loss_pct) := by
  unfold canOpenPosition getAvailableCapital
  split_ifs with h1 h2 h3 h4
  · simp only [false_iff]
    intro h
    exact absurd h.1 (not_lt.mpr h1)
  · simp only [false_iff]
    intro h
    have hraw := h.2.1
    rw [mul_comm cfg.reserve_pct m.portfolio.total_balance] at hraw
    exact absurd (le_trans hraw (le_max_right 0 _)) (not_le.mpr h2)
  · simp only [false_iff]
    intro h
    exact absurd h.2.2.1 (not_le.mpr h3)
  · simp only [false_iff]
    intro h
    exact absurd h.2.2.2 (not_lt.mpr h4)
  · simp only [true_iff]
    push_neg at h1 h2 h3 h4
    refine ⟨h1, ?_, h3, h4⟩
    rw [mul_comm m.portfolio.total_balance cfg.reserve_pct] at h2
    rcases le_or_lt 0 (m.portfolio.total_balance - m.portfolio.locked_capital -
        cfg.reserve_pct * m.portfolio.total_balance) with hge | hlt
    · rwa [max_eq_right hge] at h2
    · exact absurd (lt_of_lt_of_le hsize (by rwa [max_eq_left hlt.le] at h2))
        (lt_irrefl 0)

/-- Witness for C5 at a concrete manager state and size. -/
theorem canOpenPosition_iff_witness :
    canOpenPosition {} cmFresh 50 = true ↔
      (cmFresh.portfolio.open_positions < (20:ℤ) ∧
       (50:ℚ) ≤ cmFresh.portfolio.total_balance - cmFresh.portfolio.locked_capital -
         (1/10) * cmFresh.portfolio.total_balance ∧
       (50:ℚ) ≤ cmFresh.portfolio.total_balance * (1/10) ∧
       |cmFresh.portfolio.daily_pnl| / cmFresh.daily_start_balance < 1/20) :=
  canOpenPosition_iff {} cmFresh 50 (by norm_num) (by norm_num [cmFresh])

/-- Claim C7: if `allocate_capital(size, id)` succeeds then an immediate
`release_capital(id, pnl)` restores `locked_capital` and `open_positions` to
their pre-allocation values and moves `total_balance` by exactly `pnl`.  The
nonnegativity hypotheses are the spec's own `PortfolioState` invariants
(`locked_capital ≥ 0`, `open_positions ≥ 0`); they are needed because the
release path clamps both quantities at zero. -/
theorem allocate_release_roundtrip (cfg : CapitalConfig) (m : CapitalManager)
    (size : ℚ) (pid : String) (pnl : ℚ)
    (hL : 0 ≤ m.portfolio.locked_capital) (hO : 0 ≤ m.portfolio.open_positions)
    (hok : (allocateCapital cfg m size pid).2 = true) :
    ((releaseCapital (allocateCapital cfg m size pid).1 pid pnl none).portfolio.locked_capital
        = m.portfolio.locked_capital ∧
     (releaseCapital (allocateCapital cfg m size pid).1 pid pnl none).portfolio.open_positions
        = m.portfolio.open_positions ∧
     (releaseCapital (allocateCapital cfg m size pid).1 pid pnl none).portfolio.total_balance
        = m.portfolio.total_balance + pnl) := by
  by_cases hcan : canOpenPosition cfg m size = true
  · simp only [allocateCapital, hcan, if_true, releaseCapital, dictLookup_insert,
      Option.getD_some]
    refine ⟨?_, ?_, trivial⟩
    · simp only [add_sub_cancel_right]
      exact max_eq_right hL
    · simp only [add_sub_cancel_right]
      exact max_eq_right hO
  · simp only [allocateCapital, hcan, if_false] at hok
    simp at hok

/-- Witness for C7 at a concrete state, size and pnl. -/
theorem allocate_release_roundtrip_witness :
    ((releaseCapital (allocateCapital {} cmFresh 50 "p1").1 "p1" 7
        none).portfolio.locked_capital = cmFresh.portfolio.locked_capital ∧
     (releaseCapital (allocateCapital {} cmFresh 50 "p1").1 "p1" 7
        none).portfolio.open_positions = cmFresh.portfolio.open_positions ∧
     (releaseCapital (allocateCapital {} cmFresh 50 "p1").1 "p1" 7
        none).portfolio.total_balance = cmFresh.portfolio.total_balance + 7) :=
  allocate_release_roundtrip {} cmFresh 50 "p1" 7 (by norm_num [cmFresh])
    (by norm_num [cmFresh])
    (by norm_num [cmFresh, allocateCapital, canOpenPosition, getAvailableCapital,
      max_def, abs_zero])

/-- Claim C4: once `circuit_open` is true, `check_breaker` raises
`TradingHaltException` immediately, regardless of the balance (or time)
passed, and leaves the state unchanged — in particular no internal path (the
daily-baseline reset included) can clear `circuit_open`; only `manual_reset`
clears it. -/
theorem circuit_breaker_latch (s : CircuitBreaker) (now : PyTime) (bal pnl : ℚ)
    (hopen : s.circuit_open = true) :
    checkBreaker s now bal pnl = (s, true) ∧ (manualReset s).circuit_open = false := by
  constructor
  · unfold checkBreaker
    rw [hopen]
    simp
  · rfl

/-- Witness for C4 at a concrete tripped breaker state. -/
theorem circuit_breaker_latch_witness :
    checkBreaker cbTripped ⟨20000, 12⟩ 100000 0 = (cbTripped, true) ∧
    (manualReset cbTripped).circuit_open = false :=
  circuit_breaker_latch cbTripped ⟨20000, 12⟩ 100000 0 rfl

/-- Claim C1: the repository reads carry no mode argument at all (the
dashboard's `trading_mode=` keyword calls are `TypeError`s), and no query
filters on a mode column: a single `get_recent_opportunities` /
`get_open_positions` call returns the paper row and the live row of a
two-mode journal together, so the two modes' analytics do mix. -/
theorem journal_mode_not_partitioned :
    ("trading_mode" ∉ getRecentOpportunitiesParams ∧
     "trading_mode" ∉ getOpenPositionsParams ∧
     "trading_mode" ∉ getPerformanceSummaryParams ∧
     "trading_mode" ∉ getLatestBalanceParams ∧
     "execution_mode" ∉ getRecentOpportunitiesParams ∧
     "execution_mode" ∉ getOpenPositionsParams ∧
     "execution_mode" ∉ getPerformanceSummaryParams ∧
     "execution_mode" ∉ getLatestBalanceParams) ∧
    (oppPaper.trading_mode = "paper" ∧ oppLive.trading_mode = "live" ∧
     getRecentOpportunities [oppPaper, oppLive] 100 = [oppLive, oppPaper]) ∧
    (tradePaper.trading_mode = "paper" ∧ tradeLive.trading_mode = "live" ∧
     getOpenPositions [tradePaper, tradeLive] = [tradePaper, tradeLive]) := by
  decide

/-- Claim C3, counterexample: the Kalshi leg succeeded (its order dict is
truthy) while the Polymarket leg failed, yet no offsetting order is submitted,
because the filled order dict lacks `ticker`/`side`/`count` — the unwind
returns without placing anything.  The result is still a failure. -/
theorem partial_fill_no_offset_submitted :
    legSuccess (.ok kalshiOrderBare) = true ∧
    legSuccess (.exn "order rejected") = false ∧
    (executeArbitrageLive "arb_1" 100 (.ok kalshiOrderBare)
      (.exn "order rejected")).1 = [] ∧
    (executeArbitrageLive "arb_1" 100 (.ok kalshiOrderBare)
      (.exn "order rejected")).2.success = false := by
  decide

/-- Claim C3, amended: when exactly one leg succeeds **and** the filled
order's data carries the fields the unwind reads (truthy `ticker`, `side`,
`count` on Kalshi; truthy `token_id`, `size` on Polymarket), an offsetting
order is submitted on the filled venue before returning — same market, same
side, opposing action (sell), sized to the filled quantity, at the mid-price
limit (50¢ on Kalshi, 0.50 on Polymarket) — and the returned result is a
failure. -/
theorem partial_fill_unwind_amended (pid : String) (sz : ℚ) (kd pd : PyDict)
    (f g : LegOutcome) (hf : legSuccess f = false) (hg : legSuccess g = false)
    (kt ks kc : PVal)
    (hkt : pyGet kd "ticker" = some kt) (hks : pyGet kd "side" = some ks)
    (hkc : pyGet kd "count" = some kc)
    (htk : truthy (some kt) = true) (hts : truthy (some ks) = true)
    (htc : truthy (some kc) = true) (hkd : kd ≠ [])
    (pt ps : PVal)
    (hpt : pyGet pd "token_id" = some pt) (hps : pyGet pd "size" = some ps)
    (htp : truthy (some pt) = true) (htq : truthy (some ps) = true)
    (hpd : pd ≠ []) :
    executeArbitrageLive pid sz (.ok kd) f =
      ([⟨.kalshi, kt, ks, some "sell", kc, 50, "limit"⟩],
       ⟨false, pid, none, none, false, false, 0,
        some (failMessage (.ok kd) f)⟩) ∧
    executeArbitrageLive pid sz g (.ok pd) =
      ([⟨.polymarket, pt, .s "SELL", none, ps, 1/2, "LIMIT"⟩],
       ⟨false, pid, none, none, false, false, 0,
        some (failMessage g (.ok pd))⟩) := by
  constructor
  · cases f with
    | exn m =>
      simp [executeArbitrageLive, handlePartialFill, legSuccess, legOrder,
        unwindKalshiPosition, hkd, hkt, hks, hkc, htk, hts, htc]
    | retNone =>
      simp [executeArbitrageLive, handlePartialFill, legSuccess, legOrder,
        unwindKalshiPosition, hkd, hkt, hks, hkc, htk, hts, htc]
    | ok d => simp [legSuccess] at hf
  · cases g with
    | exn m =>
      simp [executeArbitrageLive, handlePartialFill, legSuccess, legOrder,
        unwindPolymarketPosition, hpd, hpt, hps, htp, htq]
    | retNone =>
      simp [executeArbitrageLive, handlePartialFill, legSuccess, legOrder,
        unwindPolymarketPosition, hpd, hpt, hps, htp, htq]
    | ok d => simp [legSuccess] at hg

/-- Witness for the amended C3 at concrete order dicts and leg failures. -/
theorem partial_fill_unwind_amended_witness :
    executeArbitrageLive "arb_9" 100 (.ok kalshiOrderFull) (.exn "rejected") =
      ([⟨.kalshi, .s "KXELEC", .s "yes", some "sell", .n 100, 50, "limit"⟩],
       ⟨false, "arb_9", none, none, false, false, 0,
        some (failMessage (.ok kalshiOrderFull) (.exn "rejected"))⟩) ∧
    executeArbitrageLive "arb_9" 100 .retNone (.ok polyOrderFull) =
      ([⟨.polymarket, .s "0xabc_NO", .s "SELL", none, .n 217, 1/2, "LIMIT"⟩],
       ⟨false, "arb_9", none, none, false, false, 0,
        some (failMessage .retNone (.ok polyOrderFull))⟩) :=
  partial_fill_unwind_amended "arb_9" 100 kalshiOrderFull polyOrderFull
    (.exn "rejected") .retNone rfl rfl
    (.s "KXELEC") (.s "yes") (.n 100) rfl rfl rfl (by decide) (by decide)
    (by decide) (by decide)
    (.s "0xabc_NO") (.n 217) rfl rfl (by decide) (by decide) (by decide)

/-- Claim C10: every failure result of the live `execute_arbitrage` path is
built from the `ExecutionResult` defaults — both fill flags false, both order
ids `None`, `actual_cost = 0` — even when one leg actually filled. -/
theorem failure_result_fields (pid : String) (sz : ℚ) (k p : LegOutcome)
    (h : (executeArbitrageLive pid sz k p).2.success = false) :
    (executeArbitrageLive pid sz k p).2.kalshi_filled = false ∧
    (executeArbitrageLive pid sz k p).2.polymarket_filled = false ∧
    (executeArbitrageLive pid sz k p).2.kalshi_order_id = none ∧
    (executeArbitrageLive pid sz k p).2.polymarket_order_id = none ∧
    (executeArbitrageLive pid sz k p).2.actual_cost = 0 := by
  cases k <;> cases p <;> simp_all [executeArbitrageLive]

/-- The normalization of the spec instance's first question: the leading
`"will"` survives (only space-surrounded stop words are replaced) and the
`?` is kept. -/
theorem normWill : normalizeText "Will X Y?" = "will x y?".toList := by decide

theorem normXY : normalizeText "X Y" = "x y".toList := by decide

/-- `SequenceMatcher` on the two normalized instance texts: the single
matching block is `"x y"`, so the score is `2·3/(9+3) = 1/2`. -/
theorem seqWill : seqMatcherScore ("will x y?".toList) ("x y".toList) = 1/2 := by
  have h9 : ("will x y?".toList).length = 9 := by decide
  have h3 : ("x y".toList).length = 3 := by decide
  have hM : totalMatchedAux 13 ("will x y?".toList) ("x y".toList) = 3 := by decide
  unfold seqMatcherScore
  rw [h9, h3, show (9:ℕ)+3+1 = 13 from rfl, hM]
  norm_num

theorem seqWillSym : seqMatcherScore ("x y".toList) ("will x y?".toList) = 1/2 := by
  have h9 : ("will x y?".toList).length = 9 := by decide
  have h3 : ("x y".toList).length = 3 := by decide
  have hM : totalMatchedAux 13 ("x y".toList) ("will x y?".toList) = 3 := by decide
  unfold seqMatcherScore
  rw [h3, h9, show (3:ℕ)+9+1 = 13 from rfl, hM]
  norm_num

/-- Neither instance text yields keywords (`"will"` is a stop word, `"x"`,
`"y?"` are too short), so the Jaccard part is `0` in both orders. -/
theorem kwWill : keywordOverlap "Will X Y?" "X Y" = 0 := by
  have h : extractKeywords "Will X Y?" = [] := by decide
  unfold keywordOverlap
  simp [h]

theorem kwWillSym : keywordOverlap "X Y" "Will X Y?" = 0 := by
  have h : extractKeywords "X Y" = [] := by decide
  unfold keywordOverlap
  simp [h]

theorem combWill : combinedSimilarity "Will X Y?" "X Y" = 7/20 := by
  unfold combinedSimilarity calculateSimilarity
  rw [normWill, normXY, seqWill, kwWill]
  norm_num

theorem combWillSym : combinedSimilarity "X Y" "Will X Y?" = 7/20 := by
  unfold combinedSimilarity calculateSimilarity
  rw [normWill, normXY, seqWillSym, kwWillSym]
  norm_num

/-- Claim C8, counterexample: for the spec's own instance the combined
similarity is `0.35`, far below `0.99` — `normalize_text` only removes stop
words that are surrounded by spaces, so the leading `"will"` survives, and the
`"y?"` token is neither long enough nor `?`-free, leaving no keywords. -/
theorem stopword_invariance_fails :
    combinedSimilarity "Will X Y?" "X Y" = 7/20 ∧ (7/20 : ℚ) < 99/100 :=
  ⟨combWill, by norm_num⟩

/-- Claim C8, amended: the combined similarity of `"Will X Y?"` and `"X Y"` is
indeed the same in either argument order, but it equals `0.35`, not at least
`0.99`: the two questions do not normalize to the same text (the leading
`"Will"` is not stripped). -/
theorem stopword_instance_value :
    combinedSimilarity "Will X Y?" "X Y" = combinedSimilarity "X Y" "Will X Y?" ∧
    combinedSimilarity "Will X Y?" "X Y" = 7/20 ∧
    normalizeText "Will X Y?" = "will x y?".toList ∧
    normalizeText "X Y" = "x y".toList :=
  ⟨combWill.trans combWillSym.symm, combWill, normWill, normXY⟩

/-- Invariant of the `find_matches` inner loop: from accumulator `(b0, s0)` it
either returns the accumulator unchanged (and then no listing beats the
accumulated score) or returns the first listing whose score strictly exceeds
everything before it and is not exceeded after. -/
theorem selectAux_spec (threshold : ℚ) (tolerance : ℤ) (km : Market) :
    ∀ (ps : List Market) (b0 : Option Market) (s0 : ℚ) (bm : Market) (s : ℚ),
    selectAux threshold tolerance km (b0, s0) ps = (some bm, s) →
    (b0 = some bm ∧ s0 = s ∧
      ∀ pm ∈ ps, (isMatchPair threshold tolerance km pm).1 = true →
        (isMatchPair threshold tolerance km pm).2 ≤ s) ∨
    ((isMatchPair threshold tolerance km bm).1 = true ∧
     (isMatchPair threshold tolerance km bm).2 = s ∧ s0 < s ∧
     ∃ l₁ l₂, ps = l₁ ++ bm :: l₂ ∧
       (∀ pm ∈ l₁, (isMatchPair threshold tolerance km pm).1 = true →
         (isMatchPair threshold tolerance km pm).2 < s) ∧
       (∀ pm ∈ l₂, (isMatchPair threshold tolerance km pm).1 = true →
         (isMatchPair threshold tolerance km pm).2 ≤ s)) := by
  intro ps
  induction ps with
  | nil =>
    intro b0 s0 bm s h
    simp only [selectAux, Prod.mk.injEq] at h
    left
    exact ⟨h.1, h.2, by simp⟩
  | cons pm rest ih =>
    intro b0 s0 bm s h
    simp only [selectAux] at h
    by_cases hc : (isMatchPair threshold tolerance km pm).1 = true ∧
        (isMatchPair threshold tolerance km pm).2 > s0
    · rw [if_pos hc] at h
      rcases ih (some pm) (isMatchPair threshold tolerance km pm).2 bm s h with
        ⟨hb, hs, hall⟩ | ⟨hm, hsc, hlt, l₁, l₂, hsplit, hearlier, hlater⟩
      · right
        obtain rfl : pm = bm := Option.some.inj hb
        refine ⟨hc.1, hs, hs ▸ hc.2, [], rest, by simp, by simp, hall⟩
      · right
        refine ⟨hm, hsc, lt_trans hc.2 hlt, pm :: l₁, l₂, by rw [hsplit]; rfl, ?_,
          hlater⟩
        intro q hq hmq
        rcases List.mem_cons.mp hq with rfl | hq'
        · exact hlt
        · exact hearlier q hq' hmq
    · rw [if_neg hc] at h
      rcases ih b0 s0 bm s h with
        ⟨hb, hs, hall⟩ | ⟨hm, hsc, hlt, l₁, l₂, hsplit, hearlier, hlater⟩
      · left
        refine ⟨hb, hs, ?_⟩
        intro q hq hmq
        rcases List.mem_cons.mp hq with rfl | hq'
        · by_cases hgt : (isMatchPair threshold tolerance km q).2 > s0
          · exact absurd ⟨hmq, hgt⟩ hc
          · exact hs ▸ not_lt.mp hgt
        · exact hall q hq' hmq
      · right
        refine ⟨hm, hsc, hlt, pm :: l₁, l₂, by rw [hsplit]; rfl, ?_, hlater⟩
        intro q hq hmq
        rcases List.mem_cons.mp hq with rfl | hq'
        · by_cases hgt : (isMatchPair threshold tolerance km q).2 > s0
          · exact absurd ⟨hmq, hgt⟩ hc
          · exact lt_of_le_of_lt (not_lt.mp hgt) hlt
        · exact hearlier q hq' hmq

/-- Claim C9, amended: when `find_matches` pairs a Kalshi listing, the chosen
Polymarket listing is a matching one with the (strictly positive) best score;
a tie on the best score is broken by **input order** — every matching listing
placed before the chosen one scores strictly less, every one after scores no
more — not by lexical ordering of native ids. -/
theorem find_matches_first_best (threshold : ℚ) (tolerance : ℤ) (km bm : Market)
    (ps : List Market) (s : ℚ)
    (h : selectAux threshold tolerance km (none, 0) ps = (some bm, s)) :
    findMatches threshold tolerance [km] ps = [(km, bm, s)] ∧
    (isMatchPair threshold tolerance km bm).1 = true ∧
    (isMatchPair threshold tolerance km bm).2 = s ∧ 0 < s ∧
    ∃ l₁ l₂, ps = l₁ ++ bm :: l₂ ∧
      (∀ pm ∈ l₁, (isMatchPair threshold tolerance km pm).1 = true →
        (isMatchPair threshold tolerance km pm).2 < s) ∧
      (∀ pm ∈ l₂, (isMatchPair threshold tolerance km pm).1 = true →
        (isMatchPair threshold tolerance km pm).2 ≤ s) := by
  refine ⟨by simp [findMatches, h], ?_⟩
  rcases selectAux_spec threshold tolerance km ps none 0 bm s h with ⟨hb, _, _⟩ | hr
  · exact absurd hb (by simp)
  · exact hr

/-- Identical one-keyword questions score a full `1.0` combined similarity. -/
theorem combAbc : combinedSimilarity "abc" "abc" = 1 := by
  have hn : normalizeText "abc" = "abc".toList := by decide
  have hl : ("abc".toList).length = 3 := by decide
  have hM : totalMatchedAux 7 ("abc".toList) ("abc".toList) = 3 := by decide
  have hk : extractKeywords "abc" = ["abc".toList] := by decide
  have hi : (["abc".toList].filter (fun w => w ∈ ["abc".toList])) = ["abc".toList] := by
    decide
  have hu : ((["abc".toList] ++ ["abc".toList]).dedup) = ["abc".toList] := by decide
  unfold combinedSimilarity calculateSimilarity keywordOverlap
  rw [hn]
  unfold seqMatcherScore
  rw [hl, show (3:ℕ)+3+1 = 7 from rfl, hM]
  norm_num [hk, hi, hu]

theorem isMatchTieB : isMatchPair (17/20) 1 kmTie pmTieB = (true, 1) := by
  unfold isMatchPair
  simp only [kmTie, pmTieB, combAbc, datesMatch, parseDate]
  norm_num
  decide

theorem isMatchTieA : isMatchPair (17/20) 1 kmTie pmTieA = (true, 1) := by
  unfold isMatchPair
  simp only [kmTie, pmTieA, combAbc, datesMatch, parseDate]
  norm_num
  decide

theorem selectTie : selectAux (17/20) 1 kmTie (none, 0) [pmTieB, pmTieA] =
    (some pmTieB, 1) := by
  simp only [selectAux, isMatchTieB, isMatchTieA]
  norm_num

theorem selectTieRev : selectAux (17/20) 1 kmTie (none, 0) [pmTieA, pmTieB] =
    (some pmTieA, 1) := by
  simp only [selectAux, isMatchTieB, isMatchTieA]
  norm_num

/-- Witness for the amended C9 on the concrete tie scenario. -/
theorem find_matches_first_best_witness :
    findMatches (17/20) 1 [kmTie] [pmTieB, pmTieA] = [(kmTie, pmTieB, 1)] ∧
    (isMatchPair (17/20) 1 kmTie pmTieB).1 = true ∧
    (isMatchPair (17/20) 1 kmTie pmTieB).2 = 1 ∧ (0:ℚ) < 1 ∧
    ∃ l₁ l₂, [pmTieB, pmTieA] = l₁ ++ pmTieB :: l₂ ∧
      (∀ pm ∈ l₁, (isMatchPair (17/20) 1 kmTie pm).1 = true →
        (isMatchPair (17/20) 1 kmTie pm).2 < 1) ∧
      (∀ pm ∈ l₂, (isMatchPair (17/20) 1 kmTie pm).1 = true →
        (isMatchPair (17/20) 1 kmTie pm).2 ≤ 1) :=
  find_matches_first_best (17/20) 1 kmTie pmTieB [pmTieB, pmTieA] 1 selectTie

/-- Claim C9, counterexample: two Polymarket listings tie at the best score;
the one listed first (native id `"B"`) is chosen over the lexically smaller
`"A"`, and reversing the input order flips the chosen partner — the tie-break
is input order, not native-id order. -/
theorem tie_break_not_lexical :
    findMatches (17/20) 1 [kmTie] [pmTieB, pmTieA] = [(kmTie, pmTieB, 1)] ∧
    findMatches (17/20) 1 [kmTie] [pmTieA, pmTieB] = [(kmTie, pmTieA, 1)] ∧
    pmTieB.market_id = some "B" ∧ pmTieA.market_id = some "A" ∧
    (isMatchPair (17/20) 1 kmTie pmTieA).1 = true ∧
    (isMatchPair (17/20) 1 kmTie pmTieA).2 = (isMatchPair (17/20) 1 kmTie pmTieB).2 := by
  refine ⟨?_, ?_, rfl, rfl, ?_, ?_⟩
  · simp [findMatches, selectTie]
  · simp [findMatches, selectTieRev]
  · rw [isMatchTieA]
  · rw [isMatchTieA, isMatchTieB]

/-- The question `"abc"` contains none of the analyzer's trigger phrases. -/
theorem noBEO : strContains (toLowerStr "abc") "by end of" = false := by decide

theorem noBefore : strContains (toLowerStr "abc") "before" = false := by decide

theorem noElection : strContains (toLowerStr "abc") "election" = false := by decide

theorem noVote : strContains (toLowerStr "abc") "vote" = false := by decide

theorem noCampaign : strContains (toLowerStr "abc") "campaign" = false := by decide

theorem noPolitical : strContains (toLowerStr "abc") "political" = false := by decide

/-- Risk assessment of the paired `"abc"` markets at similarity `0.95`:
only the regulatory base `0.10` contributes, giving the LOW tier and a full
size multiplier. -/
theorem riskLow :
    analyzeOpportunity kmArb pmArb (19/20) (9/100)
      (10000 * cfgZeroFees.max_trade_size_pct) = ⟨.low, 1/10, 1⟩ := by
  unfold analyzeOpportunity eventDefinitionScore timingScore liquidityScore
    edgeScore regulatoryScore
  norm_num [kmArb, pmArb, cfgZeroFees, riskyKeywords, List.foldl, List.any,
    noBEO, noBefore, noElection, noVote, noCampaign, noPolitical, min_def]

/-- Same markets at similarity `0.87`: the `< 0.90` penalty (`+0.30`) plus the
regulatory base gives score `0.40`, tier MEDIUM, multiplier `0.7`. -/
theorem riskMedium :
    analyzeOpportunity kmArb pmArb (87/100) (6/125)
      (10000 * cfgZeroFees.max_trade_size_pct) = ⟨.medium, 2/5, 7/10⟩ := by
  unfold analyzeOpportunity eventDefinitionScore timingScore liquidityScore
    edgeScore regulatoryScore
  norm_num [kmArb, pmArb, cfgZeroFees, riskyKeywords, List.foldl, List.any,
    noBEO, noBefore, noElection, noVote, noCampaign, noPolitical, min_def]

/-- Direction 1 of the spec scenario (`YES_A = 0.45`, `NO_B = 0.46`, zero
fees): every guard passes — edge `0.09`, LOW risk, size `225 ≥ 100`, positive
net edge, ample liquidity — so the pipeline reaches the constructor call and
raises. -/
theorem evalD1 :
    detectOpportunityDirectional cfgZeroFees kmArb pmArb (9/20) (23/50)
      (19/20) 10000 "kalshi_yes_poly_no" = .error attrErrMsg := by
  have he : (1 : ℚ) - (9/20 + 23/50) = 9/100 := by norm_num
  simp only [detectOpportunityDirectional, he, riskLow]
  norm_num [cfgZeroFees, kmArb, pmArb, shouldExecute, calculatePositionSize,
    min_def]

/-- Direction 1 with `p1 = 0.47`, `p2 = 0.482`, similarity `0.87`: edge
`0.048`, MEDIUM risk; the Kelly size is `120 ≥ 100`, the multiplier-adjusted
size `84` is below the minimum yet the direction is not rejected — the
pipeline again reaches the raising constructor. -/
theorem evalD1small :
    detectOpportunityDirectional cfgZeroFees kmArb pmArb (47/100) (241/500)
      (87/100) 10000 "kalshi_yes_poly_no" = .error attrErrMsg := by
  have he : (1 : ℚ) - (47/100 + 241/500) = 6/125 := by norm_num
  simp only [detectOpportunityDirectional, he, riskMedium]
  norm_num [cfgZeroFees, kmArb, pmArb, shouldExecute, calculatePositionSize,
    min_def]

/-- Claim C2: on the spec's paired-event scenario (`YES_A=0.45, NO_A=0.56,
YES_B=0.55, NO_B=0.46`, threshold `0.01`, zero fees, ample liquidity and
bankroll), `detect_best_direction` does **not** return a D1 opportunity: the
opportunity-construction step raises, because the detector reads
`risk_assessment.risk_score` while the `RiskAssessment` dataclass names that
field `score` (and the constructor is also handed `days_to_resolution` /
`annualized_roi` keywords the `ArbitrageOpportunity` dataclass lacks). -/
theorem detector_construction_raises :
    detectBestDirection cfgZeroFees kmArb pmArb (9/20) (14/25) (11/20) (23/50)
      (19/20) 10000 = .error attrErrMsg ∧
    "risk_score" ∉ riskAssessmentFields ∧
    "risk_score" ∈ opportunityCtorKwargs ∧
    "days_to_resolution" ∈ opportunityCtorKwargs ∧
    "days_to_resolution" ∉ arbitrageOpportunityFields ∧
    "annualized_roi" ∈ opportunityCtorKwargs ∧
    "annualized_roi" ∉ arbitrageOpportunityFields := by
  refine ⟨?_, by decide, by decide, by decide, by decide, by decide, by decide⟩
  unfold detectBestDirection
  rw [if_pos (by norm_num : (9/20 : ℚ) ≠ 0 ∧ (23/50 : ℚ) ≠ 0), evalD1]
  rfl

/-- Claim C6, counterexample: a direction whose multiplier-adjusted size `84`
is below `min_trade_size_usd = 100` is **not** rejected — the pipeline
proceeds past the sizing gate (all the way to the raising constructor)
because the minimum-size check is applied before the risk multiplier. -/
theorem sizing_min_check_before_multiplier :
    detectOpportunityDirectional cfgZeroFees kmArb pmArb (47/100) (241/500)
      (87/100) 10000 "kalshi_yes_poly_no" = .error attrErrMsg ∧
    calculatePositionSize cfgZeroFees (1 - (47/100 + 241/500)) 10000 (1/4) *
      (analyzeOpportunity kmArb pmArb (87/100) (1 - (47/100 + 241/500))
        (10000 * cfgZeroFees.max_trade_size_pct)).recommended_size_multiplier
      = 84 ∧
    (84 : ℚ) < cfgZeroFees.min_trade_size := by
  refine ⟨evalD1small, ?_, by norm_num [cfgZeroFees]⟩
  rw [show (1 : ℚ) - (47/100 + 241/500) = 6/125 from by norm_num, riskMedium]
  norm_num [calculatePositionSize, cfgZeroFees, min_def]

/-- `calculate_position_size` returns `0` or a value at least
`min_trade_size`. -/
theorem calculatePositionSize_min (cfg : DetectorConfig) (e b k : ℚ)
    (h : calculatePositionSize cfg e b k ≠ 0) :
    cfg.min_trade_size ≤ calculatePositionSize cfg e b k := by
  simp only [calculatePositionSize] at h ⊢
  split_ifs at h ⊢ with hs
  · exact absurd rfl h
  · exact not_lt.mp hs

/-- Claim C6, amended: the minimum-size check is applied to the Kelly size
**before** the risk multiplier; a direction that reaches the
opportunity-construction step has a pre-multiplier size of at least
`min_trade_size_usd`, and its multiplier-adjusted size is merely non-zero (it
may be below the minimum, as the counterexample shows). -/
theorem detector_sizing_amended (cfg : DetectorConfig) (km pm : Market)
    (p1 p2 sim bank : ℚ) (dir msg : String)
    (h : detectOpportunityDirectional cfg km pm p1 p2 sim bank dir =
      .error msg) :
    cfg.min_trade_size ≤ calculatePositionSize cfg (1 - (p1 + p2)) bank (1/4) ∧
    calculatePositionSize cfg (1 - (p1 + p2)) bank (1/4) *
      (analyzeOpportunity km pm sim (1 - (p1 + p2))
        (bank * cfg.max_trade_size_pct)).recommended_size_multiplier ≠ 0 := by
  simp only [detectOpportunityDirectional] at h
  split_ifs at h with h1 h2 h3 h4 h5
  all_goals try simp at h
  exact ⟨calculatePositionSize_min cfg _ bank (1/4)
    (left_ne_zero_of_mul h3), h3⟩

/-- Witness for the amended C6 on the spec scenario's direction 1. -/
theorem detector_sizing_amended_witness :
    cfgZeroFees.min_trade_size ≤
      calculatePositionSize cfgZeroFees (1 - (9/20 + 23/50)) 10000 (1/4) ∧
    calculatePositionSize cfgZeroFees (1 - (9/20 + 23/50)) 10000 (1/4) *
      (analyzeOpportunity kmArb pmArb (19/20) (1 - (9/20 + 23/50))
        (10000 * cfgZeroFees.max_trade_size_pct)).recommended_size_multiplier
      ≠ 0 :=
  detector_sizing_amended cfgZeroFees kmArb pmArb (9/20) (23/50) (19/20) 10000
    "kalshi_yes_poly_no" attrErrMsg evalD1

/-- Witness for C10 at a partial fill where the Kalshi leg really filled. -/
theorem failure_result_fields_witness :
    (executeArbitrageLive "arb_2" 100 (.ok kalshiOrderFull)
      (.exn "timeout")).2.kalshi_filled = false ∧
    (executeArbitrageLive "arb_2" 100 (.ok kalshiOrderFull)
      (.exn "timeout")).2.polymarket_filled = false ∧
    (executeArbitrageLive "arb_2" 100 (.ok kalshiOrderFull)
      (.exn "timeout")).2.kalshi_order_id = none ∧
    (executeArbitrageLive "arb_2" 100 (.ok kalshiOrderFull)
      (.exn "timeout")).2.polymarket_order_id = none ∧
    (executeArbitrageLive "arb_2" 100 (.ok kalshiOrderFull)
      (.exn "timeout")).2.actual_cost = 0 :=
  failure_result_fields "arb_2" 100 (.ok kalshiOrderFull) (.exn "timeout") rfl

end Orion
